import Mathlib

/-!
Shallow embedding of `src/main.py` (and the exception classes of
`src/bankAccountExceptions.py`) from the repository `swietlikm/bank_account`.

The program keeps a JSON file `database.json` mapping account ids to account
records, wrapped by a singleton `Database` class, and a `BankAccount` class
holding one in-memory session (account id, balance, profile fields, a logged
flag) with operations `create`, `login`, `deposit` and `update_database`.

Modelling conventions:
* Python `int`/`float` amounts are modelled by `Val`: an exact rational for
  finite values plus `inf`, `negInf` and `nan`, with IEEE-style comparison
  (every comparison with `nan` is false) and absorption in addition.  Rounding
  of finite float addition is not modelled; the claims under study do not
  depend on it.
* The JSON object is an insertion-ordered association list `Db`; Python dict
  assignment `data[k] = v` is `Db.setItem` (replace in place or append).
* Console prompts (`input`, `getpass`) are modelled as explicit arguments:
  each operation receives the strings the user would have typed.  The
  password re-prompt loops in `create` never fail (they re-ask until the
  input passes), so `create` receives the final accepted password.
* `datetime.now().strftime(...)` is an explicit `now : String` argument.
* The `Database` singleton keeps the loaded data in memory (`_data`) and
  `save_data` rewrites the file; a `World` carries both (`mem`, `file`).
  A `saveOk : Bool` argument models whether the file write raises an
  I/O error; on failure the in-memory dict has already been mutated but the
  file is unchanged (byte-level partial writes are modelled separately for
  `save_data`, see `WriteStep` below).
* A raised Python exception is the `err` field of an `Outcome`; the session
  and world fields of the `Outcome` record the state the mutation left
  behind, exactly as Python leaves instance attributes mutated when an
  exception propagates.
-/

namespace BankSpec

/-- Model of a Python numeric amount (`int` or `float`): an exact rational,
or one of the non-finite floats `inf`, `-inf`, `nan`. -/
inductive Val where
  | finite : ℚ → Val
  | inf : Val
  | negInf : Val
  | nan : Val
deriving DecidableEq, Repr

/-- Python `x <= y` on numbers: any comparison involving `nan` is `False`;
infinities compare as in IEEE 754. -/
def Val.le : Val → Val → Bool
  | .nan, _ => false
  | _, .nan => false
  | .negInf, _ => true
  | _, .negInf => false
  | _, .inf => true
  | .inf, _ => false
  | .finite a, .finite b => a ≤ b

/-- Python `x < y` on numbers: any comparison involving `nan` is `False`. -/
def Val.lt : Val → Val → Bool
  | .nan, _ => false
  | _, .nan => false
  | .negInf, .negInf => false
  | .negInf, _ => true
  | _, .negInf => false
  | .inf, _ => false
  | _, .inf => true
  | .finite a, .finite b => a < b

/-- Python `x + y` on numbers: `nan` absorbs, `inf + (-inf)` is `nan`,
otherwise an infinity absorbs; finite addition is exact here. -/
def Val.add : Val → Val → Val
  | .nan, _ => .nan
  | _, .nan => .nan
  | .inf, .negInf => .nan
  | .negInf, .inf => .nan
  | .inf, _ => .inf
  | _, .inf => .inf
  | .negInf, _ => .negInf
  | _, .negInf => .negInf
  | .finite a, .finite b => .finite (a + b)

/-- The Python exceptions the program can raise (from
`bankAccountExceptions.py` and the built-ins used in `main.py`). -/
inductive Err where
  /-- `AccountAlreadyLoggedException` raised by `create` on a logged session. -/
  | accountAlreadyLogged : Err
  /-- `AccountAlreadyExistsException` raised by `create` on a duplicate id. -/
  | accountAlreadyExists : Err
  /-- `AccountNotLoggedException` raised by `deposit` when not logged. -/
  | accountNotLogged : Err
  /-- `InvalidPasswordException` raised by `login` on a wrong password. -/
  | invalidPassword : Err
  /-- `ValueError` raised by `login` when the account id is absent. -/
  | valueErrorNoAccount : Err
  /-- `ValueError` raised by `deposit` when the value is not positive. -/
  | valueErrorNonPositiveDeposit : Err
  /-- `KeyError` from `data[self.__account_id]` in `update_database` when the
  key is absent from the dict. -/
  | keyError : Err
  /-- `OSError` from a failing file write in `Database.save_data`. -/
  | ioError : Err
  /-- Sentinel for exhausting the modelled stream of random digit strings in
  the account-number loop of `create`; the source loops forever instead, and
  this case is unreachable for a non-empty stream (see
  `generate_account_number_first`). -/
  | modelFuelExhausted : Err
deriving DecidableEq, Repr

/-- An account record: the JSON object stored under an account id, with the
keys written by `BankAccount.create` and `BankAccount.update_database`
(`"password"`, `"balance"`, `"account_number"`, `"first_name"`,
`"last_name"`, `"ssn"`, `"created"`, `"modified"`).  Fields that a session
may hold as `None` are `Option`; `"modified"` is absent until the first
`update_database`. -/
structure Account where
  password : String
  balance : Val
  account_number : Option String
  first_name : Option String
  last_name : Option String
  ssn : Option String
  created : String
  modified : Option String
deriving DecidableEq, Repr

/-- A JSON value as returned by `dict.get(key, None)` on a record: a string,
a number, or `None` (either a stored null or the default for a missing key). -/
inductive DictVal where
  | str : String → DictVal
  | num : Val → DictVal
  | null : DictVal
deriving DecidableEq, Repr

/-- `account.get(key, None)` on an account record: returns the stored value
for the keys a record actually has, and `None` (`null`) for any other key.
Records are written only with the lower-case snake-case keys listed in
`Account`; in particular no record ever has a key `"Account number"`. -/
def Account.dictGet (a : Account) (key : String) : DictVal :=
  if key = "password" then .str a.password
  else if key = "balance" then .num a.balance
  else if key = "account_number" then
    match a.account_number with | some s => .str s | none => .null
  else if key = "first_name" then
    match a.first_name with | some s => .str s | none => .null
  else if key = "last_name" then
    match a.last_name with | some s => .str s | none => .null
  else if key = "ssn" then
    match a.ssn with | some s => .str s | none => .null
  else if key = "created" then .str a.created
  else if key = "modified" then
    match a.modified with | some s => .str s | none => .null
  else .null

/-- The JSON database object: an insertion-ordered map from account id to
account record (`self._data` in class `Database`). -/
def Db := List (String × Account)
deriving DecidableEq

/-- Python dict lookup `data.get(k, None)`: first (and only) binding of `k`. -/
def Db.lookup (d : Db) (k : String) : Option Account :=
  match d with
  | [] => none
  | p :: rest => if p.1 = k then some p.2 else Db.lookup rest k

/-- Python dict assignment `data[k] = v`: replace the existing binding in
place, or append a new one. -/
def Db.setItem (d : Db) (k : String) (v : Account) : Db :=
  match d with
  | [] => [(k, v)]
  | p :: rest =>
      if p.1 = k then (k, v) :: rest else p :: Db.setItem rest k v

/-- `Database.get_accounts_ids`: `self._data.keys()`. -/
def Database.get_accounts_ids (d : Db) : List String :=
  d.map Prod.fst

/-- `Database.get_accounts_numbers`:
`set(account.get("Account number", None) for account in self._data.values())`.
Note the key queried is `"Account number"`, while records store their number
under `"account_number"`, so every element of this set is `None`. -/
def Database.get_accounts_numbers (d : Db) : List DictVal :=
  d.map (fun p => p.2.dictGet "Account number")

/-- The `Database` singleton state: the in-memory `_data` dict and the
durable content of `database.json`. -/
structure World where
  mem : Db
  file : Db
deriving DecidableEq

/-- The in-memory state of one `BankAccount` instance: the name-mangled
instance attributes set in `__init__`. -/
structure BankAccount where
  account_id : Option String
  balance : Val
  first_name : Option String
  last_name : Option String
  ssn : Option String
  account_number : Option String
  created : Option String
  modified : Option String
  is_logged : Bool
deriving DecidableEq, Repr

/-- `BankAccount.__init__`: every field `None`/`0`/`False` apart from the
optional `account_id` argument. -/
def BankAccount.init (account_id : Option String) : BankAccount :=
  { account_id := account_id, balance := .finite 0, first_name := none,
    last_name := none, ssn := none, account_number := none, created := none,
    modified := none, is_logged := false }

/-- Result of running one method: the session and database state it left
behind, plus the exception it raised, if any. -/
structure Outcome where
  s : BankAccount
  w : World
  err : Option Err
deriving DecidableEq

/-- `secrets.compare_digest` on strings: equality (the constant-time aspect
is a timing property with no functional content). -/
def compare_digest (a b : String) : Bool := a = b

/-- The punctuation class of the password pattern
`(?=.*[A-Z])(?=.*\d)(?=.*[!@#$%^&*()_+=\[{\]};:<>|./?,-])`. -/
def passwordPunctuation : List Char :=
  "!@#$%^&*()_+=[\x7b]\x7d;:<>|./?,-".data

/-- `BankAccount.is_password_validated(password1, password2=None)`.
With `password2` absent: `password1` must be longer than 7 characters and
`re.search` of the pattern above must succeed, i.e. the string contains an
upper-case ASCII letter, a digit and a punctuation character.  (Passwords
come from `getpass`, hence contain no newline, so the `.` in the lookaheads
never blocks; `\d` is modelled as an ASCII digit.)  With `password2` given:
only `secrets.compare_digest(password1, password2)` is checked. -/
def BankAccount.is_password_validated (password1 : String)
    (password2 : Option String) : Bool :=
  match password2 with
  | none =>
      if ¬ (password1.length > 7) then false
      else if ¬ (password1.data.any (fun c => 'A' ≤ c ∧ c ≤ 'Z')
          ∧ password1.data.any (fun c => '0' ≤ c ∧ c ≤ '9')
          ∧ password1.data.any (fun c => c ∈ passwordPunctuation)) then false
      else true
  | some p2 =>
      if ¬ compare_digest password1 p2 then false else true

/-- `BankAccount.update_database`: under the database context manager, fetch
`data = self.database.get_data()` (the shared `_data` dict itself), mutate
the record `data[self.__account_id]` in place with the session fields and
`modified = now`, then `self.database.save_data(data)`.  A missing key raises
`KeyError`; a failing save raises after the in-memory dict was mutated. -/
def BankAccount.update_database (s : BankAccount) (w : World) (now : String)
    (saveOk : Bool) : World × Option Err :=
  match s.account_id with
  | none => (w, some .keyError)
  | some aid =>
    match w.mem.lookup aid with
    | none => (w, some .keyError)
    | some account =>
      let account' : Account :=
        { account with
          balance := s.balance, first_name := s.first_name,
          last_name := s.last_name, account_number := s.account_number,
          ssn := s.ssn, modified := some now }
      let mem' := w.mem.setItem aid account'
      if saveOk then (⟨mem', mem'⟩, none) else (⟨mem', w.file⟩, some .ioError)

/-- `BankAccount.login(account_id)`: look the id up in the database (raise
`ValueError` if absent), compare the typed password against the stored one
with `secrets.compare_digest` (raise `InvalidPasswordException` on mismatch),
then hydrate the session fields from the record and set `__is_logged`. -/
def BankAccount.login (s : BankAccount) (w : World)
    (account_id password : String) : Outcome :=
  match w.mem.lookup account_id with
  | none => ⟨s, w, some .valueErrorNoAccount⟩
  | some account =>
    if compare_digest account.password password then
      ⟨{ s with
          account_id := some account_id,
          first_name := account.first_name,
          last_name := account.last_name,
          ssn := account.ssn,
          balance := account.balance,
          account_number := account.account_number,
          is_logged := true }, w, none⟩
    else ⟨s, w, some .invalidPassword⟩

/-- The account-number loop of `BankAccount.create`: starting from
`account_number = None`, regenerate `"7810106666"` plus 16 random digits
while the candidate is `None` or is in `Database.get_accounts_numbers()`.
The stream of random 16-digit strings is the explicit `digitsStream`;
the source loop is unbounded, so exhaustion of the modelled stream returns
`none` (unreachable for a non-empty stream). -/
def generate_account_number (d : Db) : List String → Option String
  | [] => none
  | digits :: rest =>
      if DictVal.str ("7810106666" ++ digits) ∈ Database.get_accounts_numbers d
      then generate_account_number d rest
      else some ("7810106666" ++ digits)

/-- `BankAccount.create()`: refuse on a logged session
(`AccountAlreadyLoggedException`); read the account id; refuse a duplicate id
(`AccountAlreadyExistsException`); prompt for the password until
`is_password_validated` accepts it and for its confirmation until it matches
(both loops re-ask and never fail, so `password` here is the accepted one);
generate the account number; build the new record with balance `0`, empty
profile fields and `created = now`; insert it into the dict and save.
The session object itself is not touched: `create` does not log in. -/
def BankAccount.create (s : BankAccount) (w : World)
    (account_id password : String) (digitsStream : List String)
    (now : String) (saveOk : Bool) : Outcome :=
  if s.is_logged then ⟨s, w, some .accountAlreadyLogged⟩
  else if account_id ∈ Database.get_accounts_ids w.mem then
    ⟨s, w, some .accountAlreadyExists⟩
  else
    match generate_account_number w.mem digitsStream with
    | none => ⟨s, w, some .modelFuelExhausted⟩
    | some account_number =>
      let new_account : Account :=
        { password := password, balance := .finite 0,
          account_number := some account_number, first_name := some "",
          last_name := some "", ssn := some "", created := now,
          modified := none }
      let mem' := w.mem.setItem account_id new_account
      if saveOk then ⟨s, ⟨mem', mem'⟩, none⟩
      else ⟨s, ⟨mem', w.file⟩, some .ioError⟩

/-- `BankAccount.deposit(value)`: raise `AccountNotLoggedException` when not
logged; raise `ValueError` when `value <= 0` (the `isinstance` check raising
`TypeError` is outside this numeric domain); then, under `self.lock`,
increment the in-memory balance and call `update_database`.  There is no
rollback of the increment when the save fails. -/
def BankAccount.deposit (s : BankAccount) (w : World) (value : Val)
    (now : String) (saveOk : Bool) : Outcome :=
  if ¬ s.is_logged then ⟨s, w, some .accountNotLogged⟩
  else if value.le (.finite 0) then ⟨s, w, some .valueErrorNonPositiveDeposit⟩
  else
    let s' := { s with balance := s.balance.add value }
    let r := s'.update_database w now saveOk
    ⟨s', r.1, r.2⟩

/-! ### Byte-level model of `Database.save_data`

`save_data` runs `open(DATABASE_PATH, "w")` — which truncates the file at
once — and then `json.dump(data, database_file)`, which writes the
serialization incrementally.  A save interrupted by an I/O failure has
executed the truncation and some prefix of the writes. -/

/-- One primitive file operation performed by `save_data`. -/
inductive WriteStep where
  /-- `open(DATABASE_PATH, "w")`: truncate the file to empty. -/
  | truncate : WriteStep
  /-- One chunk written by `json.dump`. -/
  | writeChunk : List Char → WriteStep

/-- Effect of one step on the file content. -/
def applyStep (content : List Char) : WriteStep → List Char
  | .truncate => []
  | .writeChunk c => content ++ c

/-- The sequence of file operations `Database.save_data` performs when the
new serialization is written as the given chunks. -/
def save_data_steps (chunks : List (List Char)) : List WriteStep :=
  .truncate :: chunks.map .writeChunk

/-- File content after running a sequence of steps. -/
def runSteps (content : List Char) (steps : List WriteStep) : List Char :=
  steps.foldl applyStep content

/-- Concatenation of the serialized chunks: the full new snapshot bytes. -/
def concatChunks : List (List Char) → List Char
  | [] => []
  | c :: rest => c ++ concatChunks rest

/-! ### Concrete fixtures used by witnesses and counterexamples -/

/-- A concrete stored account, as `create` would have written it: the record
for id `"alice"` with password `"Str0ng!Pw"`, balance `0` and the account
number `"7810106666"` followed by sixteen `0` digits. -/
def testAccount : Account :=
  { password := "Str0ng!Pw", balance := .finite 0,
    account_number := some "78101066660000000000000000",
    first_name := some "", last_name := some "", ssn := some "",
    created := "01.01.2024 00:00:00", modified := none }

/-- A database state holding exactly the record of `testAccount`, identical
in memory and on disk. -/
def testWorld : World :=
  ⟨[("alice", testAccount)], [("alice", testAccount)]⟩

/-- A session logged into `"alice"` of `testWorld` (the outcome of a
successful `login` on a fresh session). -/
def loggedSession : BankAccount :=
  (BankAccount.login (BankAccount.init none) testWorld "alice" "Str0ng!Pw").s

/-! ### Non-negativity invariant (for C9) -/

/-- `v` is not negative in Python terms: `v < 0` is `False` (so `nan` and
`inf` count as non-negative, `-inf` and negative rationals do not). -/
def Val.nonneg (v : Val) : Bool := !(Val.lt v (.finite 0))

/-- Every record balance in the dict is non-negative. -/
def Db.nonneg (d : Db) : Bool := d.all (fun p => p.2.balance.nonneg)

/-- The non-negativity invariant over a session and the database state:
the session balance and every stored balance, in memory and on disk, are
non-negative. -/
def nonnegInv (s : BankAccount) (w : World) : Bool :=
  s.balance.nonneg && w.mem.nonneg && w.file.nonneg

/-! ### Basic lemmas about the embedded operations -/

theorem Account.dictGet_wrong_key (a : Account) :
    a.dictGet "Account number" = .null := rfl

/-- Every element of `Database.get_accounts_numbers` is `None`, because the
key it queries (`"Account number"`) is never present in a record; hence no
string is ever a member of the returned set. -/
theorem get_accounts_numbers_no_str (d : Db) (c : String) :
    DictVal.str c ∉ Database.get_accounts_numbers d := by
  induction d with
  | nil => simp [Database.get_accounts_numbers]
  | cons p rest ih =>
      simp only [Database.get_accounts_numbers, List.map_cons, List.mem_cons]
      rintro (h | h)
      · rw [Account.dictGet_wrong_key] at h
        exact DictVal.noConfusion h
      · exact ih h

/-- The account-number loop accepts its very first candidate, whatever the
database holds: the collision check is against a set containing only `None`. -/
theorem generate_account_number_first (d : Db) (digits : String)
    (rest : List String) :
    generate_account_number d (digits :: rest) =
      some ("7810106666" ++ digits) := by
  simp [generate_account_number, get_accounts_numbers_no_str]

theorem Db.lookup_setItem_self (d : Db) (k : String) (v : Account) :
    (d.setItem k v).lookup k = some v := by
  induction d with
  | nil => simp [Db.setItem, Db.lookup]
  | cons p rest ih =>
      by_cases h : p.1 = k
      · simp [Db.setItem, Db.lookup, h]
      · simp [Db.setItem, Db.lookup, h, ih]

theorem Db.lookup_setItem_ne (d : Db) (k k' : String) (v : Account)
    (h : k' ≠ k) : (d.setItem k v).lookup k' = d.lookup k' := by
  induction d with
  | nil => simp [Db.setItem, Db.lookup, Ne.symm h]
  | cons p rest ih =>
      by_cases hp : p.1 = k
      · have hk' : ¬ k = k' := Ne.symm h
        have hp' : ¬ p.1 = k' := by rw [hp]; exact hk'
        simp [Db.setItem, Db.lookup, hp, hk', hp']
      · by_cases hp' : p.1 = k' <;> simp [Db.setItem, Db.lookup, hp, hp', ih, h]

theorem Db.nonneg_setItem (d : Db) (k : String) (v : Account)
    (hd : d.nonneg = true) (hv : v.balance.nonneg = true) :
    (d.setItem k v).nonneg = true := by
  induction d with
  | nil => simp [Db.setItem, Db.nonneg, hv]
  | cons p rest ih =>
      simp only [Db.nonneg, List.all_cons, Bool.and_eq_true] at hd
      by_cases h : p.1 = k
      · simp [Db.setItem, Db.nonneg, h, hv, hd.2]
      · have hrest := ih hd.2
        simp only [Db.nonneg] at hrest
        simp [Db.setItem, Db.nonneg, h, hd.1, hrest]

theorem Db.nonneg_lookup (d : Db) (k : String) (a : Account)
    (hd : d.nonneg = true) (hl : d.lookup k = some a) :
    a.balance.nonneg = true := by
  induction d with
  | nil => simp [Db.lookup] at hl
  | cons p rest ih =>
      simp only [Db.nonneg, List.all_cons, Bool.and_eq_true] at hd
      simp only [Db.lookup] at hl
      by_cases h : p.1 = k
      · rw [if_pos h] at hl
        injection hl with hl
        rw [← hl]
        exact hd.1
      · rw [if_neg h] at hl
        exact ih hd.2 hl

theorem runSteps_writeChunks (acc : List Char) (l : List (List Char)) :
    runSteps acc (l.map .writeChunk) = acc ++ concatChunks l := by
  induction l generalizing acc with
  | nil => simp [runSteps, concatChunks]
  | cons c rest ih =>
      simp [runSteps, concatChunks, applyStep] at *
      simp [ih, List.append_assoc]

theorem concatChunks_take_prefix (l : List (List Char)) (j : Nat) :
    ∃ t, concatChunks (l.take j) ++ t = concatChunks l := by
  induction l generalizing j with
  | nil => exact ⟨[], by simp [concatChunks]⟩
  | cons c rest ih =>
      cases j with
      | zero => exact ⟨concatChunks (c :: rest), by simp [concatChunks]⟩
      | succ j' =>
          obtain ⟨t, ht⟩ := ih j'
          exact ⟨t, by simp [List.take_succ_cons, concatChunks,
            List.append_assoc, ht]⟩

/-- `update_database` only ever raises `KeyError` (absent id) or an I/O
error from the save; in particular it never raises the deposit validation
error. -/
theorem update_database_err_cases (s : BankAccount) (w : World) (now : String)
    (ok : Bool) :
    (s.update_database w now ok).2 = some .keyError ∨
    (s.update_database w now ok).2 = none ∨
    (s.update_database w now ok).2 = some .ioError := by
  unfold BankAccount.update_database
  rcases haid : s.account_id with _ | aid
  · simp [haid]
  · rcases hl : w.mem.lookup aid with _ | account
    · simp [haid, hl]
    · by_cases h : ok <;> simp [haid, hl, h]

theorem Val.nonneg_zero : (Val.finite 0).nonneg = true := by decide

/-- `update_database` preserves non-negativity of all stored balances, in
memory and on disk, whenever the session balance being written is itself
non-negative. -/
theorem update_database_nonneg (s : BankAccount) (w : World) (now : String)
    (ok : Bool) (hs : s.balance.nonneg = true) (hmem : w.mem.nonneg = true)
    (hfile : w.file.nonneg = true) :
    (s.update_database w now ok).1.mem.nonneg = true ∧
    (s.update_database w now ok).1.file.nonneg = true := by
  unfold BankAccount.update_database
  rcases haid : s.account_id with _ | aid
  · simp only [haid]
    exact ⟨hmem, hfile⟩
  · rcases hl : w.mem.lookup aid with _ | account
    · simp only [haid, hl]
      exact ⟨hmem, hfile⟩
    · simp only [haid, hl]
      by_cases h : ok = true
      · rw [if_pos h]
        exact ⟨Db.nonneg_setItem _ _ _ hmem hs, Db.nonneg_setItem _ _ _ hmem hs⟩
      · rw [if_neg h]
        exact ⟨Db.nonneg_setItem _ _ _ hmem hs, hfile⟩

/-- Adding a value that fails the `value <= 0` test to a non-negative balance
keeps the balance non-negative (the value is a positive rational, `inf` or
`nan`; the result is a non-negative rational, `inf` or `nan`). -/
theorem Val.nonneg_add (b v : Val) (hb : b.nonneg = true)
    (hv : v.le (.finite 0) = false) : (b.add v).nonneg = true := by
  cases b <;> cases v <;> simp_all [Val.nonneg, Val.add, Val.le, Val.lt]
  linarith

/-! ### The claims -/

/-- C1: for every account identifier not already present in the ledger and
every credential satisfying the credential policy, a successful `create` for
that identifier followed immediately by a `login` with the same identifier
and the same credential succeeds, and the resulting session reports
balance `0`. -/
theorem C1_create_then_login (s : BankAccount) (w : World)
    (account_id password digits now : String) (rest : List String)
    (hs : s.is_logged = false)
    (hid : account_id ∉ Database.get_accounts_ids w.mem)
    (hpw : BankAccount.is_password_validated password none = true) :
    (BankAccount.create s w account_id password (digits :: rest) now true).err
        = none ∧
    (BankAccount.login
        (BankAccount.create s w account_id password (digits :: rest) now true).s
        (BankAccount.create s w account_id password (digits :: rest) now true).w
        account_id password).err = none ∧
    (BankAccount.login
        (BankAccount.create s w account_id password (digits :: rest) now true).s
        (BankAccount.create s w account_id password (digits :: rest) now true).w
        account_id password).s.is_logged = true ∧
    (BankAccount.login
        (BankAccount.create s w account_id password (digits :: rest) now true).s
        (BankAccount.create s w account_id password (digits :: rest) now true).w
        account_id password).s.balance = Val.finite 0 := by
  unfold BankAccount.create BankAccount.login
  rw [generate_account_number_first]
  simp [hs, hid, Db.lookup_setItem_self, compare_digest]

/-- Witness for C1 at a concrete input: creating `"bob"` in the one-account
`testWorld` with the strong credential `"Aa1!aaaa"` and then logging in with
it succeeds and reports balance `0`. -/
theorem C1_create_then_login_witness :
    ((BankAccount.init none).is_logged = false ∧
      "bob" ∉ Database.get_accounts_ids testWorld.mem ∧
      BankAccount.is_password_validated "Aa1!aaaa" none = true) ∧
    ((BankAccount.create (BankAccount.init none) testWorld "bob" "Aa1!aaaa"
        ["0123456789012345"] "t" true).err = none ∧
      (BankAccount.login
          (BankAccount.create (BankAccount.init none) testWorld "bob" "Aa1!aaaa"
            ["0123456789012345"] "t" true).s
          (BankAccount.create (BankAccount.init none) testWorld "bob" "Aa1!aaaa"
            ["0123456789012345"] "t" true).w
          "bob" "Aa1!aaaa").err = none ∧
      (BankAccount.login
          (BankAccount.create (BankAccount.init none) testWorld "bob" "Aa1!aaaa"
            ["0123456789012345"] "t" true).s
          (BankAccount.create (BankAccount.init none) testWorld "bob" "Aa1!aaaa"
            ["0123456789012345"] "t" true).w
          "bob" "Aa1!aaaa").s.is_logged = true ∧
      (BankAccount.login
          (BankAccount.create (BankAccount.init none) testWorld "bob" "Aa1!aaaa"
            ["0123456789012345"] "t" true).s
          (BankAccount.create (BankAccount.init none) testWorld "bob" "Aa1!aaaa"
            ["0123456789012345"] "t" true).w
          "bob" "Aa1!aaaa").s.balance = Val.finite 0) :=
  ⟨⟨by decide, by decide, by decide⟩,
    C1_create_then_login (BankAccount.init none) testWorld "bob" "Aa1!aaaa"
      "0123456789012345" "t" [] (by decide) (by decide) (by decide)⟩

/-- C10: with the second argument supplied, `is_password_validated` returns
`True` exactly when the two strings are equal; in this confirmation mode the
length and character-class strength checks are skipped entirely (for
instance the one-character password `"a"` confirmed by `"a"` is accepted). -/
theorem C10_confirmation_mode_is_equality :
    (∀ p1 p2 : String,
        BankAccount.is_password_validated p1 (some p2) = true ↔ p1 = p2) ∧
    BankAccount.is_password_validated "a" (some "a") = true := by
  constructor
  · intro p1 p2
    simp [BankAccount.is_password_validated, compare_digest]
  · decide

/-- C2 (code bug): the uniqueness re-check of generated account numbers is
broken.  `Database.get_accounts_numbers` queries the key `"Account number"`
while records store their number under `"account_number"`, so the checked
set is `{None}` and the regeneration loop accepts its first candidate even
when that candidate collides with a stored account number: creating `"bob"`
in `testWorld` with random digits `"0000000000000000"` succeeds and leaves
two records (`"alice"` and `"bob"`) sharing the account number
`"78101066660000000000000000"`. -/
theorem C2_duplicate_account_number_created :
    Database.get_accounts_numbers testWorld.mem = [DictVal.null] ∧
    (BankAccount.create (BankAccount.init none) testWorld "bob" "Aa1!aaaa"
        ["0000000000000000"] "t" true).err = none ∧
    ((BankAccount.create (BankAccount.init none) testWorld "bob" "Aa1!aaaa"
          ["0000000000000000"] "t" true).w.mem.lookup "alice").map
        Account.account_number = some (some "78101066660000000000000000") ∧
    ((BankAccount.create (BankAccount.init none) testWorld "bob" "Aa1!aaaa"
          ["0000000000000000"] "t" true).w.mem.lookup "bob").map
        Account.account_number = some (some "78101066660000000000000000") ∧
    "alice" ≠ "bob" := by decide

/-- Counterexample to C3: a successful `create` does not authenticate the
session; the method never sets `__is_logged`, so the session stays
`Unauthenticated` even though the account was created and saved. -/
theorem C3_counterexample_create_success_stays_unauthenticated :
    (BankAccount.create (BankAccount.init none) ⟨[], []⟩ "alice" "Str0ng!Pw"
        ["0123456789012345"] "t" true).err = none ∧
    (BankAccount.create (BankAccount.init none) ⟨[], []⟩ "alice" "Str0ng!Pw"
        ["0123456789012345"] "t" true).s.is_logged = false := by decide

/-- C3 as amended: `create` and `login` are the only operations that can
change the authentication state of an unauthenticated session; `login`
moves it to `Authenticated` exactly on success and leaves the session
untouched on failure; `create` leaves the session object untouched on every
path — including success, so it never authenticates; `deposit` on an
unauthenticated session fails with `AccountNotLoggedException` and changes
nothing. -/
theorem C3_amended_auth_transitions (s : BankAccount) (w : World)
    (aid pw now : String) (digitsStream : List String) (v : Val) (ok : Bool)
    (hs : s.is_logged = false) :
    (BankAccount.create s w aid pw digitsStream now ok).s = s ∧
    ((BankAccount.login s w aid pw).err = none →
      (BankAccount.login s w aid pw).s.is_logged = true) ∧
    ((BankAccount.login s w aid pw).err ≠ none →
      (BankAccount.login s w aid pw).s = s) ∧
    BankAccount.deposit s w v now ok = ⟨s, w, some .accountNotLogged⟩ := by
  refine ⟨?_, ?_, ?_, ?_⟩
  · unfold BankAccount.create
    rw [if_neg (by simp [hs])]
    split
    · rfl
    · split
      · rfl
      · split <;> rfl
  · unfold BankAccount.login
    rcases hl : w.mem.lookup aid with _ | account
    · simp [hl]
    · by_cases hc : compare_digest account.password pw <;> simp [hl, hc]
  · unfold BankAccount.login
    rcases hl : w.mem.lookup aid with _ | account
    · simp [hl]
    · by_cases hc : compare_digest account.password pw <;> simp [hl, hc]
  · unfold BankAccount.deposit
    rw [if_pos (by simp [hs])]

/-- Witness for the amended C3 at a concrete input: the fresh session over
`testWorld`. -/
theorem C3_amended_auth_transitions_witness :
    (BankAccount.init none).is_logged = false ∧
    ((BankAccount.create (BankAccount.init none) testWorld "alice" "Aa1!aaaa"
        ["0123456789012345"] "t" true).s = BankAccount.init none ∧
      ((BankAccount.login (BankAccount.init none) testWorld "alice"
            "Str0ng!Pw").err = none →
        (BankAccount.login (BankAccount.init none) testWorld "alice"
            "Str0ng!Pw").s.is_logged = true) ∧
      ((BankAccount.login (BankAccount.init none) testWorld "alice"
            "Str0ng!Pw").err ≠ none →
        (BankAccount.login (BankAccount.init none) testWorld "alice"
            "Str0ng!Pw").s = BankAccount.init none) ∧
      BankAccount.deposit (BankAccount.init none) testWorld (.finite 1) "t" true
        = ⟨BankAccount.init none, testWorld, some .accountNotLogged⟩) :=
  ⟨by decide,
    C3_amended_auth_transitions (BankAccount.init none) testWorld "alice"
      "Str0ng!Pw" "t" ["0123456789012345"] (.finite 1) true (by decide)⟩

unseal Rat.add in
/-- C4 (code bug): when the persistence step of `deposit` fails, the
in-memory balance increment is not rolled back.  Depositing `50` into the
logged session over `testWorld` (stored balance `0`) with a failing save
raises the I/O error, yet leaves the session balance at `50` while the
durable file still records `0`. -/
theorem C4_failed_deposit_not_rolled_back :
    (BankAccount.deposit loggedSession testWorld (.finite 50) "t" false).err
        = some .ioError ∧
    (BankAccount.deposit loggedSession testWorld (.finite 50) "t" false).s.balance
        = .finite 50 ∧
    ((BankAccount.deposit loggedSession testWorld (.finite 50) "t"
          false).w.file.lookup "alice").map Account.balance
        = some (.finite 0) ∧
    Val.finite 50 ≠ Val.finite 0 := by decide

/-- Counterexample to C6: a non-finite deposit amount is not rejected.
`float("inf") <= 0` is `False`, so `deposit(inf)` on an authenticated
session passes validation, raises nothing, and corrupts both the session
balance and the stored balance to `inf`. -/
theorem C6_counterexample_infinite_deposit_accepted :
    (BankAccount.deposit loggedSession testWorld .inf "t" true).err = none ∧
    (BankAccount.deposit loggedSession testWorld .inf "t" true).s.balance
        = .inf ∧
    ((BankAccount.deposit loggedSession testWorld .inf "t"
          true).w.file.lookup "alice").map Account.balance = some .inf := by
  decide

/-- C6 as amended: on an authenticated session, `deposit` with an amount
`<= 0` fails with the `ValueError` of the validation and leaves the session
and both database states unchanged; non-finite amounts (`inf`, `nan`),
however, pass the validation — the operation never raises the validation
error for them. -/
theorem C6_amended_nonpositive_rejected (s : BankAccount) (w : World)
    (v : Val) (now : String) (ok : Bool) (hlog : s.is_logged = true) :
    (v.le (.finite 0) = true →
      BankAccount.deposit s w v now ok
        = ⟨s, w, some .valueErrorNonPositiveDeposit⟩) ∧
    (BankAccount.deposit s w .inf now ok).err
        ≠ some .valueErrorNonPositiveDeposit ∧
    (BankAccount.deposit s w .nan now ok).err
        ≠ some .valueErrorNonPositiveDeposit := by
  refine ⟨?_, ?_, ?_⟩
  · intro hv
    unfold BankAccount.deposit
    rw [if_neg (by simp [hlog]), if_pos hv]
  · unfold BankAccount.deposit
    rw [if_neg (by simp [hlog]), if_neg (by decide)]
    rcases update_database_err_cases
        { s with balance := s.balance.add .inf } w now ok with h | h | h <;>
      simp [h]
  · unfold BankAccount.deposit
    rw [if_neg (by simp [hlog]), if_neg (by decide)]
    rcases update_database_err_cases
        { s with balance := s.balance.add .nan } w now ok with h | h | h <;>
      simp [h]

/-- Witness for the amended C6 at a concrete input: the logged session over
`testWorld` and the amount `0`. -/
theorem C6_amended_nonpositive_rejected_witness :
    loggedSession.is_logged = true ∧
    ((Val.le (.finite 0) (.finite 0) = true →
      BankAccount.deposit loggedSession testWorld (.finite 0) "t" true
        = ⟨loggedSession, testWorld, some .valueErrorNonPositiveDeposit⟩) ∧
    (BankAccount.deposit loggedSession testWorld .inf "t" true).err
        ≠ some .valueErrorNonPositiveDeposit ∧
    (BankAccount.deposit loggedSession testWorld .nan "t" true).err
        ≠ some .valueErrorNonPositiveDeposit) :=
  ⟨by decide,
    C6_amended_nonpositive_rejected loggedSession testWorld (.finite 0) "t"
      true (by decide)⟩

/-- C7: `create` on an unauthenticated session with an account identifier
already present in the ledger always fails with
`AccountAlreadyExistsException`, leaving the session and both database
states — in particular the set of account identifiers — unchanged. -/
theorem C7_duplicate_create_fails (s : BankAccount) (w : World)
    (aid pw now : String) (digitsStream : List String) (ok : Bool)
    (hs : s.is_logged = false)
    (hdup : aid ∈ Database.get_accounts_ids w.mem) :
    BankAccount.create s w aid pw digitsStream now ok
        = ⟨s, w, some .accountAlreadyExists⟩ ∧
    Database.get_accounts_ids
        (BankAccount.create s w aid pw digitsStream now ok).w.mem
      = Database.get_accounts_ids w.mem := by
  have h1 : BankAccount.create s w aid pw digitsStream now ok
      = ⟨s, w, some .accountAlreadyExists⟩ := by
    unfold BankAccount.create
    rw [if_neg (by simp [hs]), if_pos hdup]
  exact ⟨h1, by rw [h1]⟩

/-- Witness for C7 at a concrete input: re-creating `"alice"`, which already
exists in `testWorld`. -/
theorem C7_duplicate_create_fails_witness :
    ((BankAccount.init none).is_logged = false ∧
      "alice" ∈ Database.get_accounts_ids testWorld.mem) ∧
    (BankAccount.create (BankAccount.init none) testWorld "alice" "Aa1!aaaa"
        ["0123456789012345"] "t" true
      = ⟨BankAccount.init none, testWorld, some .accountAlreadyExists⟩ ∧
    Database.get_accounts_ids
        (BankAccount.create (BankAccount.init none) testWorld "alice"
          "Aa1!aaaa" ["0123456789012345"] "t" true).w.mem
      = Database.get_accounts_ids testWorld.mem) :=
  ⟨⟨by decide, by decide⟩,
    C7_duplicate_create_fails (BankAccount.init none) testWorld "alice"
      "Aa1!aaaa" "t" ["0123456789012345"] true (by decide) (by decide)⟩

/-- Counterexample to C5: `save_data` is not atomic and does not leave the
old snapshot intact on failure.  Opening the database file with mode `"w"`
truncates it immediately, so a save of the new snapshot `"new"` over the old
snapshot `"old"` that fails right after the open (one step executed) leaves
the file empty — neither the old nor the new snapshot. -/
theorem C5_counterexample_truncate_loses_snapshot :
    runSteps ['o', 'l', 'd'] ((save_data_steps [['n', 'e', 'w']]).take 1)
        = [] ∧
    ([] : List Char) ≠ ['o', 'l', 'd'] ∧
    ([] : List Char) ≠ concatChunks [['n', 'e', 'w']] := by decide

/-- C5 as amended: `save_data` rewrites `database.json` in place — open with
mode `"w"` (truncate) followed by the incremental writes of `json.dump` —
so after any non-empty prefix of its file operations the file holds a
prefix of the new serialization (possibly empty), never the old snapshot;
an I/O failure mid-save therefore leaves a partial new snapshot, not an
unmodified ledger. -/
theorem C5_amended_truncate_then_write (old : List Char)
    (chunks : List (List Char)) (k : Nat) (hk : 1 ≤ k) :
    ∃ t, runSteps old ((save_data_steps chunks).take k) ++ t
        = concatChunks chunks := by
  obtain ⟨k', rfl⟩ : ∃ k', k = k' + 1 := ⟨k - 1, by omega⟩
  have htake : (save_data_steps chunks).take (k' + 1)
      = .truncate :: (chunks.take k').map .writeChunk := by
    simp [save_data_steps, List.map_take]
  rw [htake]
  have hrun : runSteps old
      (.truncate :: (chunks.take k').map .writeChunk)
      = runSteps [] ((chunks.take k').map .writeChunk) := rfl
  rw [hrun, runSteps_writeChunks]
  simpa using concatChunks_take_prefix chunks k'

/-- Witness for the amended C5 at a concrete input: a save of `"new"` over
`"old"` interrupted after its first file operation. -/
theorem C5_amended_truncate_then_write_witness :
    1 ≤ 1 ∧
    ∃ t, runSteps ['o', 'l', 'd'] ((save_data_steps [['n', 'e', 'w']]).take 1)
        ++ t = concatChunks [['n', 'e', 'w']] :=
  ⟨by decide,
    C5_amended_truncate_then_write ['o', 'l', 'd'] [['n', 'e', 'w']] 1
      (by decide)⟩

unseal Rat.add in
/-- Counterexample to C8: two sessions logged into the same account lose an
update even when their deposits are fully serialized, one after the other.
Both sessions hydrate balance `0` from `testWorld`; after session one
deposits `1` and session two deposits `2`, the durable balance is `2`, not
the claimed `0 + 1 + 2 = 3` — so no schedule-independent convergence to
`prior + a + b` holds. -/
theorem C8_counterexample_lost_update :
    (BankAccount.deposit loggedSession testWorld (.finite 1) "t1" true).err
        = none ∧
    (BankAccount.deposit loggedSession
        (BankAccount.deposit loggedSession testWorld (.finite 1) "t1" true).w
        (.finite 2) "t2" true).err = none ∧
    ((BankAccount.deposit loggedSession
          (BankAccount.deposit loggedSession testWorld (.finite 1) "t1"
            true).w
          (.finite 2) "t2" true).w.file.lookup "alice").map Account.balance
      = some (.finite 2) ∧
    Val.finite 2 ≠ Val.finite (0 + 1 + 2) := by decide

/-- C8 as amended: the lock created in `BankAccount.__init__` is per session
object, not per account identifier, and `update_database` writes the
session's absolute in-memory balance; consequently two sessions logged into
the same account lose an update even under the coarsest serialization.  For
any stored balance `p` and deposits `a` then `b` issued through two sessions
that were both hydrated at balance `p`, both deposits succeed and the
durable balance ends at `p + b`, which differs from the `p + a + b` required
for no lost update. -/
theorem C8_amended_lost_update (aid pw now1 now2 : String) (acct : Account)
    (p a b : ℚ) (hbal : acct.balance = .finite p) (hpw : acct.password = pw)
    (ha : 0 < a) (hb : 0 < b) :
    (BankAccount.deposit
        (BankAccount.login (BankAccount.init none)
          ⟨[(aid, acct)], [(aid, acct)]⟩ aid pw).s
        ⟨[(aid, acct)], [(aid, acct)]⟩ (.finite a) now1 true).err = none ∧
    (BankAccount.deposit
        (BankAccount.login (BankAccount.init none)
          ⟨[(aid, acct)], [(aid, acct)]⟩ aid pw).s
        (BankAccount.deposit
          (BankAccount.login (BankAccount.init none)
            ⟨[(aid, acct)], [(aid, acct)]⟩ aid pw).s
          ⟨[(aid, acct)], [(aid, acct)]⟩ (.finite a) now1 true).w
        (.finite b) now2 true).err = none ∧
    ((BankAccount.deposit
        (BankAccount.login (BankAccount.init none)
          ⟨[(aid, acct)], [(aid, acct)]⟩ aid pw).s
        (BankAccount.deposit
          (BankAccount.login (BankAccount.init none)
            ⟨[(aid, acct)], [(aid, acct)]⟩ aid pw).s
          ⟨[(aid, acct)], [(aid, acct)]⟩ (.finite a) now1 true).w
        (.finite b) now2 true).w.file.lookup aid).map Account.balance
      = some (.finite (p + b)) ∧
    Val.finite (p + b) ≠ Val.finite (p + a + b) := by
  subst hpw
  have hs1 : (BankAccount.login (BankAccount.init none)
      ⟨[(aid, acct)], [(aid, acct)]⟩ aid acct.password).s
      = { account_id := some aid, balance := .finite p,
          first_name := acct.first_name, last_name := acct.last_name,
          ssn := acct.ssn, account_number := acct.account_number,
          created := none, modified := none, is_logged := true } := by
    unfold BankAccount.login
    simp [Db.lookup, compare_digest, BankAccount.init, hbal]
  rw [hs1]
  have hna : ¬ a ≤ 0 := not_le.mpr ha
  have hnb : ¬ b ≤ 0 := not_le.mpr hb
  unfold BankAccount.deposit BankAccount.update_database
  simp [Db.lookup, Db.setItem, Val.le, Val.add, hna, hnb]
  exact ne_of_gt ha

/-- Witness for the amended C8 at a concrete input: `testAccount` (balance
`0`) with deposits `1` and `2` through two hydrated-at-`0` sessions. -/
theorem C8_amended_lost_update_witness :
    (testAccount.balance = Val.finite 0 ∧
      testAccount.password = "Str0ng!Pw" ∧ (0 : ℚ) < 1 ∧ (0 : ℚ) < 2) ∧
    ((BankAccount.deposit
        (BankAccount.login (BankAccount.init none)
          ⟨[("alice", testAccount)], [("alice", testAccount)]⟩ "alice"
          "Str0ng!Pw").s
        ⟨[("alice", testAccount)], [("alice", testAccount)]⟩ (.finite 1) "t1"
        true).err = none ∧
    (BankAccount.deposit
        (BankAccount.login (BankAccount.init none)
          ⟨[("alice", testAccount)], [("alice", testAccount)]⟩ "alice"
          "Str0ng!Pw").s
        (BankAccount.deposit
          (BankAccount.login (BankAccount.init none)
            ⟨[("alice", testAccount)], [("alice", testAccount)]⟩ "alice"
            "Str0ng!Pw").s
          ⟨[("alice", testAccount)], [("alice", testAccount)]⟩ (.finite 1)
          "t1" true).w
        (.finite 2) "t2" true).err = none ∧
    ((BankAccount.deposit
        (BankAccount.login (BankAccount.init none)
          ⟨[("alice", testAccount)], [("alice", testAccount)]⟩ "alice"
          "Str0ng!Pw").s
        (BankAccount.deposit
          (BankAccount.login (BankAccount.init none)
            ⟨[("alice", testAccount)], [("alice", testAccount)]⟩ "alice"
            "Str0ng!Pw").s
          ⟨[("alice", testAccount)], [("alice", testAccount)]⟩ (.finite 1)
          "t1" true).w
        (.finite 2) "t2" true).w.file.lookup "alice").map Account.balance
      = some (.finite ((0 : ℚ) + 2)) ∧
    Val.finite ((0 : ℚ) + 2) ≠ Val.finite ((0 : ℚ) + 1 + 2)) :=
  ⟨⟨rfl, rfl, by norm_num, by norm_num⟩,
    C8_amended_lost_update "alice" "Str0ng!Pw" "t1" "t2" testAccount 0 1 2
      rfl rfl (by norm_num) (by norm_num)⟩

/-- C9: balances are never negative.  A fresh session reports balance `0`,
`create` writes a record with balance `0`, `login` copies a stored balance,
and `deposit` only adds amounts passing the positivity check, so every
operation preserves non-negativity of the session balance and of every
balance in the in-memory and durable ledgers, provided the starting state
satisfies it. -/
theorem C9_balances_never_negative (s : BankAccount) (w : World)
    (aid0 : Option String) (aid pw now : String) (digitsStream : List String)
    (v : Val) (ok : Bool) (hInv : nonnegInv s w = true) :
    (BankAccount.init aid0).balance = Val.finite 0 ∧
    nonnegInv (BankAccount.create s w aid pw digitsStream now ok).s
        (BankAccount.create s w aid pw digitsStream now ok).w = true ∧
    nonnegInv (BankAccount.login s w aid pw).s
        (BankAccount.login s w aid pw).w = true ∧
    nonnegInv (BankAccount.deposit s w v now ok).s
        (BankAccount.deposit s w v now ok).w = true := by
  have hInv' := hInv
  simp only [nonnegInv, Bool.and_eq_true] at hInv'
  obtain ⟨⟨hbal, hmem⟩, hfile⟩ := hInv'
  refine ⟨rfl, ?_, ?_, ?_⟩
  · unfold BankAccount.create
    split
    · exact hInv
    · split
      · exact hInv
      · split
        · exact hInv
        · split
          · simp only [nonnegInv, Bool.and_eq_true]
            exact ⟨⟨hbal, Db.nonneg_setItem _ _ _ hmem Val.nonneg_zero⟩,
              Db.nonneg_setItem _ _ _ hmem Val.nonneg_zero⟩
          · simp only [nonnegInv, Bool.and_eq_true]
            exact ⟨⟨hbal, Db.nonneg_setItem _ _ _ hmem Val.nonneg_zero⟩,
              hfile⟩
  · unfold BankAccount.login
    rcases hl : w.mem.lookup aid with _ | account
    · simp only [hl]
      exact hInv
    · simp only [hl]
      split
      · simp only [nonnegInv, Bool.and_eq_true]
        exact ⟨⟨Db.nonneg_lookup w.mem aid account hmem hl, hmem⟩, hfile⟩
      · exact hInv
  · unfold BankAccount.deposit
    split
    · exact hInv
    · split
      · exact hInv
      · rename_i hlog hnle
        have hvle : v.le (.finite 0) = false := by
          revert hnle
          cases v.le (.finite 0) <;> simp
        have hs' : (Val.add s.balance v).nonneg = true :=
          Val.nonneg_add _ _ hbal hvle
        have hupd := update_database_nonneg
          { s with balance := s.balance.add v } w now ok hs' hmem hfile
        simp only [nonnegInv, Bool.and_eq_true]
        exact ⟨⟨hs', hupd.1⟩, hupd.2⟩

/-- Witness for C9 at a concrete input: the logged session over `testWorld`
creating `"bob"`, logging in again and depositing `1`. -/
theorem C9_balances_never_negative_witness :
    nonnegInv loggedSession testWorld = true ∧
    ((BankAccount.init none).balance = Val.finite 0 ∧
    nonnegInv (BankAccount.create loggedSession testWorld "bob" "Aa1!aaaa"
          ["0123456789012345"] "t" true).s
        (BankAccount.create loggedSession testWorld "bob" "Aa1!aaaa"
          ["0123456789012345"] "t" true).w = true ∧
    nonnegInv (BankAccount.login loggedSession testWorld "bob"
          "Aa1!aaaa").s
        (BankAccount.login loggedSession testWorld "bob" "Aa1!aaaa").w
        = true ∧
    nonnegInv (BankAccount.deposit loggedSession testWorld (.finite 1) "t"
          true).s
        (BankAccount.deposit loggedSession testWorld (.finite 1) "t" true).w
        = true) :=
  ⟨by decide,
    C9_balances_never_negative loggedSession testWorld none "bob" "Aa1!aaaa"
      "t" ["0123456789012345"] (.finite 1) true (by decide)⟩

end BankSpec
